import Mathlib

/-!
Verification of the structured-data projection logic of wagtail-seo
(file wagtailseo/blocks.py): the OpeningHours projector, the Action
projector, and the supporting multi-choice field.

The projectors are Python methods that build plain dictionaries, call
json.loads on the free-form extra_json field, and merge with dict.update.
We embed the dictionaries as insertion-ordered association lists, and
model the relevant Python library semantics (json.loads, dict.update)
faithfully: json.loads as an executable JSON parser following the json
module grammar, dict.update with its mapping / sequence-of-pairs
protocol, in which an exception is raised for arguments that are neither
a mapping nor an iterable of key-value pairs.
-/

/-- Python exceptions that the projection code can raise:
json.JSONDecodeError from json.loads, TypeError and ValueError from
dict.update on a bad argument. -/
inductive PyError
  | jsonDecodeError
  | typeError
  | valueError
deriving DecidableEq

/-- A hashable Python value usable as a dict key, as producible from
parsed JSON: None, bool, number (kept as its JSON lexeme) or str.
Lists and dicts are unhashable and cannot be keys. -/
inductive PyKey
  | null
  | bool (b : Bool)
  | num (lexeme : String)
  | str (s : String)
deriving DecidableEq

/-- A Python value as produced by json.loads or built by the projectors:
None, bool, number (kept as its JSON lexeme), str, list, or dict.
Dicts are modelled as insertion-ordered association lists. -/
inductive PyVal
  | null
  | bool (b : Bool)
  | num (lexeme : String)
  | str (s : String)
  | list (vs : List PyVal)
  | dict (kvs : List (PyKey × PyVal))

/-- The injection of a dict key back into a value. -/
def PyKey.toVal : PyKey → PyVal
  | .null => .null
  | .bool b => .bool b
  | .num s => .num s
  | .str s => .str s

/-- Whether a value is hashable, i.e. usable as a dict key. -/
def keyOf : PyVal → Option PyKey
  | .null => some .null
  | .bool b => some (.bool b)
  | .num s => some (.num s)
  | .str s => some (.str s)
  | .list _ => none
  | .dict _ => none

/-- Python dict assignment d[k] = v: replaces the value at the first
occurrence of the key, keeping its position, or appends a new entry. -/
def dictInsert (kvs : List (PyKey × PyVal)) (k : PyKey) (v : PyVal) :
    List (PyKey × PyVal) :=
  match kvs with
  | [] => [(k, v)]
  | (k2, w) :: rest =>
    if k2 = k then (k2, v) :: rest else (k2, w) :: dictInsert rest k v

/-- Python dict.update with a list of key-value pairs: repeated
assignment, in order, last write wins. -/
def dictUpdate (kvs : List (PyKey × PyVal))
    (pairs : List (PyKey × PyVal)) : List (PyKey × PyVal) :=
  pairs.foldl (fun d p => dictInsert d p.1 p.2) kvs

/-- Python dict lookup: the value at the (unique) occurrence of the key;
we return the first occurrence, as dicts never hold a key twice. -/
def dictLookup (kvs : List (PyKey × PyVal)) (k : PyKey) : Option PyVal :=
  match kvs with
  | [] => none
  | (k2, v) :: rest => if k2 = k then some v else dictLookup rest k

/-- The last value paired with a key in a raw pair list (before
dict-collapsing): the value that survives repeated assignment. -/
def lookupLast (pairs : List (PyKey × PyVal)) (k : PyKey) : Option PyVal :=
  match pairs with
  | [] => none
  | (k2, v) :: rest =>
    match lookupLast rest k with
    | some w => some w
    | none => if k2 = k then some v else none

/-! ### json.loads, modelled as an executable parser

Follows the grammar of the Python json module: values are objects,
arrays, strings (with the standard escapes, including \uXXXX), numbers
matching -?(0|[1-9][0-9]*)(.[0-9]+)?([eE][+-]?[0-9]+)?, the literals
true / false / null, and the Python extensions NaN / Infinity /
-Infinity.  Whitespace is space, tab, newline, carriage return.
Unescaped control characters inside strings are rejected (strict mode).
Trailing non-whitespace input is an error ("Extra data"). -/

def isJsonWs (c : Char) : Bool :=
  c = ' ' || c = '\t' || c = '\n' || c = '\r'

def skipWs : List Char → List Char
  | [] => []
  | c :: rest => if isJsonWs c then skipWs rest else c :: rest

def isDigitC (c : Char) : Bool := '0' ≤ c && c ≤ '9'

def hexVal (c : Char) : Option Nat :=
  if '0' ≤ c && c ≤ '9' then some (c.toNat - 48)
  else if 'a' ≤ c && c ≤ 'f' then some (c.toNat - 87)
  else if 'A' ≤ c && c ≤ 'F' then some (c.toNat - 55)
  else none

/-- The single-character string escapes of JSON. -/
def escChar : Char → Option Char
  | '"' => some '"'
  | '\\' => some '\\'
  | '/' => some '/'
  | 'b' => some (Char.ofNat 8)
  | 'f' => some (Char.ofNat 12)
  | 'n' => some '\n'
  | 'r' => some '\r'
  | 't' => some '\t'
  | _ => none

/-- Parse the body of a JSON string, after the opening quote; returns
the decoded characters and the input after the closing quote. -/
def parseStringBody : List Char → Except PyError (List Char × List Char)
  | [] => .error .jsonDecodeError
  | '"' :: rest => .ok ([], rest)
  | '\\' :: 'u' :: h1 :: h2 :: h3 :: h4 :: rest =>
    match hexVal h1, hexVal h2, hexVal h3, hexVal h4 with
    | some a, some b, some c, some d => do
      let (s, r) ← parseStringBody rest
      .ok (Char.ofNat (4096 * a + 256 * b + 16 * c + d) :: s, r)
    | _, _, _, _ => .error .jsonDecodeError
  | '\\' :: e :: rest =>
    match escChar e with
    | some c => do
      let (s, r) ← parseStringBody rest
      .ok (c :: s, r)
    | none => .error .jsonDecodeError
  | c :: rest =>
    if c.toNat < 32 then .error .jsonDecodeError
    else do
      let (s, r) ← parseStringBody rest
      .ok (c :: s, r)

def takeDigits : List Char → (List Char × List Char)
  | [] => ([], [])
  | c :: rest =>
    if isDigitC c then
      let (d, r) := takeDigits rest
      (c :: d, r)
    else ([], c :: rest)

/-- Integer part of a JSON number: 0, or a nonzero digit followed by
digits (leading zeros are not absorbed). -/
def parseIntPart : List Char → Except PyError (List Char × List Char)
  | [] => .error .jsonDecodeError
  | '0' :: rest => .ok (['0'], rest)
  | c :: rest =>
    if isDigitC c then
      let (d, r) := takeDigits rest
      .ok (c :: d, r)
    else .error .jsonDecodeError

/-- Optional fraction part: a dot followed by at least one digit;
otherwise consumes nothing. -/
def parseFrac : List Char → (List Char × List Char)
  | '.' :: c :: rest =>
    if isDigitC c then
      let (d, r) := takeDigits rest
      ('.' :: c :: d, r)
    else ([], '.' :: c :: rest)
  | cs => ([], cs)

/-- Optional exponent part: e or E, an optional sign, then at least one
digit; otherwise consumes nothing. -/
def parseExp : List Char → (List Char × List Char)
  | [] => ([], [])
  | c :: rest =>
    if c = 'e' || c = 'E' then
      match rest with
      | [] => ([], [c])
      | s :: rest2 =>
        if s = '+' || s = '-' then
          match rest2 with
          | [] => ([], c :: [s])
          | d :: rest3 =>
            if isDigitC d then
              let (ds, r) := takeDigits rest3
              (c :: s :: d :: ds, r)
            else ([], c :: s :: d :: rest3)
        else if isDigitC s then
          let (ds, r) := takeDigits rest2
          (c :: s :: ds, r)
        else ([], c :: s :: rest2)
    else ([], c :: rest)

/-- A JSON number, kept as its lexeme. -/
def parseNumber : List Char → Except PyError (List Char × List Char)
  | '-' :: rest => do
    let (ip, r1) ← parseIntPart rest
    let (fp, r2) := parseFrac r1
    let (ep, r3) := parseExp r2
    .ok ('-' :: (ip ++ fp ++ ep), r3)
  | cs => do
    let (ip, r1) ← parseIntPart cs
    let (fp, r2) := parseFrac r1
    let (ep, r3) := parseExp r2
    .ok (ip ++ fp ++ ep, r3)

mutual

/-- Parse one JSON value, leading whitespace allowed.  The fuel bounds
recursion depth; loads supplies more than enough for any input. -/
def parseVal : Nat → List Char → Except PyError (PyVal × List Char)
  | 0, _ => .error .jsonDecodeError
  | Nat.succ fuel, cs =>
    match skipWs cs with
    | 't' :: 'r' :: 'u' :: 'e' :: rest => .ok (.bool true, rest)
    | 'f' :: 'a' :: 'l' :: 's' :: 'e' :: rest => .ok (.bool false, rest)
    | 'n' :: 'u' :: 'l' :: 'l' :: rest => .ok (.null, rest)
    | 'N' :: 'a' :: 'N' :: rest => .ok (.num "NaN", rest)
    | 'I' :: 'n' :: 'f' :: 'i' :: 'n' :: 'i' :: 't' :: 'y' :: rest =>
      .ok (.num "Infinity", rest)
    | '-' :: 'I' :: 'n' :: 'f' :: 'i' :: 'n' :: 'i' :: 't' :: 'y' :: rest =>
      .ok (.num "-Infinity", rest)
    | '"' :: rest => do
      let (s, r) ← parseStringBody rest
      .ok (.str (String.mk s), r)
    | '[' :: rest =>
      (match skipWs rest with
      | ']' :: r2 => .ok (.list [], r2)
      | cs2 => do
        let (vs, r2) ← parseArrTail fuel cs2
        .ok (.list vs, r2))
    | '\x7b' :: rest =>
      (match skipWs rest with
      | '\x7d' :: r2 => .ok (.dict [], r2)
      | cs2 => do
        let (kvs, r2) ← parseObjTail fuel cs2
        .ok (.dict (dictUpdate [] kvs), r2))
    | cs2 => do
      let (lex, r) ← parseNumber cs2
      .ok (.num (String.mk lex), r)

/-- Parse the elements of a non-empty array, positioned at the first
element; consumes the closing bracket. -/
def parseArrTail : Nat → List Char → Except PyError (List PyVal × List Char)
  | 0, _ => .error .jsonDecodeError
  | Nat.succ fuel, cs => do
    let (v, r1) ← parseVal fuel cs
    match skipWs r1 with
    | ',' :: r2 => do
      let (vs, r3) ← parseArrTail fuel r2
      .ok (v :: vs, r3)
    | ']' :: r2 => .ok ([v], r2)
    | _ => .error .jsonDecodeError

/-- Parse the members of a non-empty object, positioned at the first
key; consumes the closing brace.  Returns the raw pair list; the caller
collapses duplicate keys the way repeated dict assignment does. -/
def parseObjTail : Nat → List Char →
    Except PyError (List (PyKey × PyVal) × List Char)
  | 0, _ => .error .jsonDecodeError
  | Nat.succ fuel, cs =>
    match skipWs cs with
    | '"' :: rest => do
      let (k, r1) ← parseStringBody rest
      match skipWs r1 with
      | ':' :: r2 => do
        let (v, r3) ← parseVal fuel r2
        match skipWs r3 with
        | ',' :: r4 => do
          let (kvs, r5) ← parseObjTail fuel r4
          .ok ((PyKey.str (String.mk k), v) :: kvs, r5)
        | '\x7d' :: r4 => .ok ([(PyKey.str (String.mk k), v)], r4)
        | _ => .error .jsonDecodeError
      | _ => .error .jsonDecodeError
    | _ => .error .jsonDecodeError

end

/-- json.loads: parse a complete JSON document; anything but whitespace
after the value is an error. -/
def loads (s : String) : Except PyError PyVal := do
  let cs := s.data
  let (v, rest) ← parseVal (2 * cs.length + 4) cs
  if (skipWs rest).isEmpty then .ok v else .error .jsonDecodeError

/-! ### dict.update on a parsed JSON value

d.update(x) accepts a mapping, or an iterable whose elements each
unpack into a key and a value: a two-element list (whose first element
must be hashable), a two-character string (its two characters), or a
two-entry dict (its two keys).  Anything else raises TypeError or
ValueError. -/

/-- Unpack one element of a sequence passed to dict.update into a
key-value pair, as Python iterable unpacking does. -/
def elemToPair : PyVal → Except PyError (PyKey × PyVal)
  | .list [k, v] =>
    match keyOf k with
    | some kk => .ok (kk, v)
    | none => .error .typeError
  | .list _ => .error .valueError
  | .str s =>
    match s.data with
    | [a, b] => .ok (.str (String.mk [a]), .str (String.mk [b]))
    | _ => .error .valueError
  | .dict [(k1, _), (k2, _)] => .ok (k1, k2.toVal)
  | .dict _ => .error .valueError
  | _ => .error .typeError

/-- Unpack every element of the sequence, failing on the first bad one. -/
def pairsOfElems : List PyVal → Except PyError (List (PyKey × PyVal))
  | [] => .ok []
  | e :: rest => do
    let p ← elemToPair e
    let ps ← pairsOfElems rest
    .ok (p :: ps)

/-- The pairs that d.update(x) writes, for a parsed JSON value x:
a dict contributes its entries; a list, its unpacked elements; a string,
its characters (each a one-character string that cannot unpack, so only
the empty string succeeds); numbers, booleans and None are not iterable. -/
def updateArg : PyVal → Except PyError (List (PyKey × PyVal))
  | .dict kvs => .ok kvs
  | .list elems => pairsOfElems elems
  | .str s => if s.data.isEmpty then .ok [] else .error .valueError
  | _ => .error .typeError

/-! ### The Action projector (StructuredDataActionValue.struct_dict) -/

/-- The field set of StructuredDataActionBlock.  action_type is a
required choice (a non-empty string), target a URL string, query and
result_type optional choices, language a CharBlock defaulting to
"en-US", result_name an optional CharBlock, extra_json an optional raw
text blob.  All arrive as strings; "optional" means possibly empty. -/
structure ActionEntry where
  action_type : String
  target : String
  query : String
  language : String
  result_type : String
  result_name : String
  extra_json : String

/-- The fixed actionPlatform list emitted for every non-SearchAction. -/
def actionPlatform : List PyVal :=
  [.str "http://schema.org/DesktopWebPlatform",
   .str "http://schema.org/IOSPlatform",
   .str "http://schema.org/AndroidPlatform"]

/-- Steps 1 and 2 of StructuredDataActionValue.struct_dict: the base
dictionary keyed on action_type, then the optional result overlay when
result_type is truthy. -/
def StructuredDataActionValue.struct_dict_base (e : ActionEntry) :
    List (PyKey × PyVal) :=
  let sd_dict : List (PyKey × PyVal) :=
    if e.action_type = "SearchAction" then
      [(.str "@type", .str e.action_type),
       (.str "target", .str e.target),
       (.str "query", .str e.query)]
    else
      [(.str "@type", .str e.action_type),
       (.str "target", .dict
         [(.str "@type", .str "EntryPoint"),
          (.str "urlTemplate", .str e.target),
          (.str "inLanguage", .str e.language),
          (.str "actionPlatform", .list actionPlatform)])]
  if e.result_type ≠ "" then
    dictUpdate sd_dict
      [(.str "result", .dict
        [(.str "@type", .str e.result_type),
         (.str "name", .str e.result_name)])]
  else sd_dict

/-- StructuredDataActionValue.struct_dict: steps 1 and 2, then, when
extra_json is truthy, sd_dict.update(json.loads(extra_json)); an
exception from json.loads or from the update propagates and no
dictionary is returned. -/
def StructuredDataActionValue.struct_dict (e : ActionEntry) :
    Except PyError (List (PyKey × PyVal)) :=
  if e.extra_json ≠ "" then do
    let j ← loads e.extra_json
    let pairs ← updateArg j
    .ok (dictUpdate (StructuredDataActionValue.struct_dict_base e) pairs)
  else .ok (StructuredDataActionValue.struct_dict_base e)

/-- The pairs the extra_json overlay contributes: none when extra_json
is falsy, otherwise those of the parsed value; errors as in
struct_dict. -/
def overlayOf (e : ActionEntry) : Except PyError (List (PyKey × PyVal)) :=
  if e.extra_json ≠ "" then (loads e.extra_json).bind updateArg
  else .ok []

/-! ### The OpeningHours projector (OpenHoursValue.struct_dict) -/

/-- A wall-clock time of day, as a TimeBlock delivers it. -/
structure TimeOfDay where
  hour : Nat
  minute : Nat

/-- Modelled from the spec: the host serializer that renders a
time-of-day value in the emitted data is outside the sources given
(only the comment date:'H:i' in blocks.py points at it); per the spec
it serializes as a 24-hour zero-padded "HH:MM" string. -/
def formatHHMM (t : TimeOfDay) : String :=
  String.mk
    [Char.ofNat (48 + t.hour / 10 % 10), Char.ofNat (48 + t.hour % 10),
     ':',
     Char.ofNat (48 + t.minute / 10 % 10), Char.ofNat (48 + t.minute % 10)]

/-- The field set of OpenHoursBlock. -/
structure OpenHoursEntry where
  days : List String
  start_time : TimeOfDay
  end_time : TimeOfDay

/-- OpenHoursValue.struct_dict: the OpeningHoursSpecification
dictionary, days passed through as supplied, the two times rendered by
the host serializer. -/
def OpenHoursValue.struct_dict (e : OpenHoursEntry) : List (PyKey × PyVal) :=
  [(.str "@type", .str "OpeningHoursSpecification"),
   (.str "dayOfWeek", .list (e.days.map .str)),
   (.str "opens", .str (formatHHMM e.start_time)),
   (.str "closes", .str (formatHHMM e.end_time))]

/-- Whether a five-character sequence has the 24-hour "HH:MM" shape:
two decimal digits, a colon, two decimal digits, reading as an hour
below 24 and a minute below 60. -/
def isHHMMChars : List Char → Bool
  | [a, b, c, d, e] =>
    decide (c = ':') &&
    decide (48 ≤ a.toNat) && decide (a.toNat ≤ 57) &&
    decide (48 ≤ b.toNat) && decide (b.toNat ≤ 57) &&
    decide (48 ≤ d.toNat) && decide (d.toNat ≤ 57) &&
    decide (48 ≤ e.toNat) && decide (e.toNat ≤ 57) &&
    decide ((a.toNat - 48) * 10 + (b.toNat - 48) < 24) &&
    decide ((d.toNat - 48) * 10 + (e.toNat - 48) < 60)
  | _ => false

/-- Whether a string is a 24-hour "HH:MM" time string. -/
def isHHMM (s : String) : Bool := isHHMMChars s.data

/-! ### The multi-choice field (MultiSelectBlock) -/

/-- The error raised by field validation. -/
inductive ValidationError
  | required
  | invalidChoice
deriving DecidableEq

/-- Whether a submitted token is one of the configured choices (each a
value-label pair). -/
def validValue (choices : List (String × String)) (v : String) : Bool :=
  choices.any (fun c => c.1 = v)

/-- Modelled from the spec: MultiSelectBlock delegates validation to
the host form field (forms.MultipleChoiceField, outside the sources
given), configured with the required flag and choices passed by
MultiSelectBlock; per the spec it fails when required and the selection
is empty, then on the first selected token outside the choices. -/
def MultipleChoiceField.validate (required : Bool)
    (choices : List (String × String)) (selection : List String) :
    Except ValidationError Unit :=
  if required && selection.isEmpty then .error .required
  else
    match selection.find? (fun v => ! validValue choices v) with
    | some _ => .error .invalidChoice
    | none => .ok ()

/-- The choices configured on the days field of OpenHoursBlock
(value-label pairs; the labels are the same strings, passed through
translation only for display). -/
def daysChoices : List (String × String) :=
  [("Monday", "Monday"), ("Tuesday", "Tuesday"),
   ("Wednesday", "Wednesday"), ("Thursday", "Thursday"),
   ("Friday", "Friday"), ("Saturday", "Saturday"),
   ("Sunday", "Sunday")]

/-- A concrete ReserveAction entry, parameterized by its extra_json
field, used to exercise the projector at specific inputs. -/
def reserveEntry (extra : String) : ActionEntry :=
  { action_type := "ReserveAction", target := "https://ex.com/book",
    query := "", language := "en-US", result_type := "",
    result_name := "", extra_json := extra }

/-! ### Dictionary lemmas -/

theorem dictLookup_dictInsert (d : List (PyKey × PyVal)) (k2 k : PyKey)
    (v : PyVal) :
    dictLookup (dictInsert d k2 v) k =
      if k2 = k then some v else dictLookup d k := by
  induction d with
  | nil => simp [dictInsert, dictLookup]
  | cons p rest ih =>
    obtain ⟨kp, vp⟩ := p
    by_cases h1 : kp = k2
    · subst h1
      by_cases h2 : kp = k
      · subst h2; simp [dictInsert, dictLookup]
      · simp [dictInsert, dictLookup, h2]
    · by_cases h2 : kp = k
      · subst h2
        have h3 : ¬ k2 = kp := fun h => h1 h.symm
        simp [dictInsert, dictLookup, h1, h3]
      · simp [dictInsert, dictLookup, h1, h2, ih]

theorem dictLookup_dictUpdate (pairs : List (PyKey × PyVal))
    (d : List (PyKey × PyVal)) (k : PyKey) :
    dictLookup (dictUpdate d pairs) k =
      match lookupLast pairs k with
      | some w => some w
      | none => dictLookup d k := by
  induction pairs generalizing d with
  | nil => simp [dictUpdate, lookupLast]
  | cons p rest ih =>
    obtain ⟨kp, vp⟩ := p
    have step : dictUpdate d ((kp, vp) :: rest) =
        dictUpdate (dictInsert d kp vp) rest := rfl
    rw [step, ih]
    cases hrest : lookupLast rest k with
    | some w => simp [lookupLast, hrest]
    | none =>
      simp only [lookupLast, hrest, dictLookup_dictInsert]
      by_cases hk : kp = k <;> simp [hk]

/-- struct_dict succeeds exactly when the overlay does, and then equals
steps 1-2 updated with the full overlay. -/
theorem struct_dict_eq_ok (e : ActionEntry) (d : List (PyKey × PyVal)) :
    StructuredDataActionValue.struct_dict e = .ok d ↔
      ∃ pairs, overlayOf e = .ok pairs ∧
        d = dictUpdate (StructuredDataActionValue.struct_dict_base e) pairs := by
  by_cases h : e.extra_json = ""
  · simp only [StructuredDataActionValue.struct_dict, overlayOf, h, ne_eq,
      not_true_eq_false, if_false]
    constructor
    · intro hd
      exact ⟨[], rfl, (Except.ok.inj hd).symm⟩
    · rintro ⟨pairs, hp, hd⟩
      obtain rfl : ([] : List (PyKey × PyVal)) = pairs := Except.ok.inj hp
      simp [hd, dictUpdate]
  · simp only [StructuredDataActionValue.struct_dict, overlayOf, h, ne_eq,
      not_false_eq_true, if_true]
    cases hl : loads e.extra_json with
    | error err => simp [Bind.bind, Except.bind]
    | ok j =>
      cases hu : updateArg j with
      | error err => simp [Bind.bind, Except.bind, hu]
      | ok pairs =>
        simp only [Bind.bind, Except.bind, hu]
        constructor
        · intro hd
          exact ⟨pairs, rfl, (Except.ok.inj hd).symm⟩
        · rintro ⟨pairs2, hp2, hd2⟩
          obtain rfl : pairs = pairs2 := Except.ok.inj hp2
          simp [hd2]

/-- Lookup of "result" in the steps 1-2 dictionary: present with the
built sub-object exactly when result_type is truthy. -/
theorem dictLookup_base_result (e : ActionEntry) :
    dictLookup (StructuredDataActionValue.struct_dict_base e)
        (.str "result") =
      if e.result_type ≠ "" then
        some (.dict [(.str "@type", .str e.result_type),
                     (.str "name", .str e.result_name)])
      else none := by
  unfold StructuredDataActionValue.struct_dict_base
  by_cases ha : e.action_type = "SearchAction" <;>
    by_cases hr : e.result_type = "" <;>
      simp [ha, hr, dictUpdate, dictInsert, dictLookup]

/-- The steps 1-2 dictionary of a SearchAction has no "inLanguage" key. -/
theorem dictLookup_base_inLanguage (e : ActionEntry)
    (h : e.action_type = "SearchAction") :
    dictLookup (StructuredDataActionValue.struct_dict_base e)
      (.str "inLanguage") = none := by
  unfold StructuredDataActionValue.struct_dict_base
  by_cases hr : e.result_type = "" <;>
    simp [h, hr, dictUpdate, dictInsert, dictLookup]

/-- C1: for every ActionEntry whose action_type is not "SearchAction",
with result_type falsy and extra_json empty, the Action projector
returns the dictionary whose "@type" is action_type and whose "target"
is an EntryPoint object carrying urlTemplate = target, inLanguage =
language, and actionPlatform equal to exactly the fixed three-element
platform list, in that order. -/
theorem C1_nonsearch_entrypoint (e : ActionEntry)
    (h1 : e.action_type ≠ "SearchAction") (h2 : e.result_type = "")
    (h3 : e.extra_json = "") :
    StructuredDataActionValue.struct_dict e =
      .ok [(.str "@type", .str e.action_type),
           (.str "target", .dict
             [(.str "@type", .str "EntryPoint"),
              (.str "urlTemplate", .str e.target),
              (.str "inLanguage", .str e.language),
              (.str "actionPlatform",
                .list [.str "http://schema.org/DesktopWebPlatform",
                       .str "http://schema.org/IOSPlatform",
                       .str "http://schema.org/AndroidPlatform"])])] := by
  simp [StructuredDataActionValue.struct_dict,
    StructuredDataActionValue.struct_dict_base, h1, h2, h3, actionPlatform]

/-- C1 witness: the theorem applied to a concrete ReserveAction entry. -/
theorem C1_nonsearch_entrypoint_witness :
    StructuredDataActionValue.struct_dict
      { action_type := "ReserveAction", target := "https://ex.com/book",
        query := "", language := "en-US", result_type := "",
        result_name := "", extra_json := "" } =
      .ok [(.str "@type", .str "ReserveAction"),
           (.str "target", .dict
             [(.str "@type", .str "EntryPoint"),
              (.str "urlTemplate", .str "https://ex.com/book"),
              (.str "inLanguage", .str "en-US"),
              (.str "actionPlatform",
                .list [.str "http://schema.org/DesktopWebPlatform",
                       .str "http://schema.org/IOSPlatform",
                       .str "http://schema.org/AndroidPlatform"])])] :=
  C1_nonsearch_entrypoint
    { action_type := "ReserveAction", target := "https://ex.com/book",
      query := "", language := "en-US", result_type := "",
      result_name := "", extra_json := "" }
    (by decide) rfl rfl

/-- C4: for every ActionEntry with action_type = "SearchAction",
result_type falsy and extra_json empty, the projector returns exactly
the three-key dictionary whose "target" is the literal target string
(not wrapped in an EntryPoint object) and whose "query" is the input
query verbatim, even when empty. -/
theorem C4_searchaction_flat_target (e : ActionEntry)
    (h1 : e.action_type = "SearchAction") (h2 : e.result_type = "")
    (h3 : e.extra_json = "") :
    StructuredDataActionValue.struct_dict e =
      .ok [(.str "@type", .str "SearchAction"),
           (.str "target", .str e.target),
           (.str "query", .str e.query)] := by
  simp [StructuredDataActionValue.struct_dict,
    StructuredDataActionValue.struct_dict_base, h1, h2, h3]

/-- C4 witness: the theorem applied to a concrete SearchAction entry
with an empty query. -/
theorem C4_searchaction_flat_target_witness :
    StructuredDataActionValue.struct_dict
      { action_type := "SearchAction",
        target := "https://ex.com/find?q=\x7bquery\x7d",
        query := "", language := "en-US", result_type := "",
        result_name := "", extra_json := "" } =
      .ok [(.str "@type", .str "SearchAction"),
           (.str "target", .str "https://ex.com/find?q=\x7bquery\x7d"),
           (.str "query", .str "")] :=
  C4_searchaction_flat_target
    { action_type := "SearchAction",
      target := "https://ex.com/find?q=\x7bquery\x7d",
      query := "", language := "en-US", result_type := "",
      result_name := "", extra_json := "" }
    rfl rfl rfl

/-- C2: for every ActionEntry whose non-empty extra_json parses to a
JSON object, the projector output is the steps 1-2 dictionary with
every top-level key of the parsed object shallow-merged in last: a key
named in the overlay takes the overlay's value, overwriting any
same-named key of steps 1-2, and every key not named in the overlay
keeps its steps 1-2 value. -/
theorem C2_overlay_precedence (e : ActionEntry) (kvs : List (PyKey × PyVal))
    (hne : e.extra_json ≠ "")
    (hl : loads e.extra_json = .ok (.dict kvs)) :
    StructuredDataActionValue.struct_dict e =
      .ok (dictUpdate (StructuredDataActionValue.struct_dict_base e) kvs) ∧
    ∀ k, dictLookup
        (dictUpdate (StructuredDataActionValue.struct_dict_base e) kvs) k =
      match lookupLast kvs k with
      | some w => some w
      | none => dictLookup (StructuredDataActionValue.struct_dict_base e) k := by
  constructor
  · simp [StructuredDataActionValue.struct_dict, hne, hl, Bind.bind,
      Except.bind, updateArg]
  · intro k
    exact dictLookup_dictUpdate kvs _ k

/-- C2 witness: with extra_json supplying a "query" key, the "query"
produced by step 1 is overwritten by the overlay value. -/
theorem C2_overlay_precedence_witness :
    StructuredDataActionValue.struct_dict
      { action_type := "SearchAction", target := "https://ex.com/s",
        query := "required", language := "en-US", result_type := "",
        result_name := "",
        extra_json := "\x7b\"query\": \"override\"\x7d" } =
      .ok [(.str "@type", .str "SearchAction"),
           (.str "target", .str "https://ex.com/s"),
           (.str "query", .str "override")] := by
  have h := C2_overlay_precedence
    { action_type := "SearchAction", target := "https://ex.com/s",
      query := "required", language := "en-US", result_type := "",
      result_name := "",
      extra_json := "\x7b\"query\": \"override\"\x7d" }
    [(.str "query", .str "override")] (by decide) rfl
  exact h.1.trans rfl

/-- C3 counterexample: extra_json = [["a", 1]] is a non-empty string
that is valid JSON whose top-level value is not a JSON object, yet the
projector raises nothing and returns a dictionary, so the claim that
every such input raises is false at this input. -/
theorem C3_counterexample :
    ("[[\"a\", 1]]" : String) ≠ "" ∧
    loads "[[\"a\", 1]]" = .ok (.list [.list [.str "a", .num "1"]]) ∧
    StructuredDataActionValue.struct_dict (reserveEntry "[[\"a\", 1]]") =
      .ok [(.str "@type", .str "ReserveAction"),
           (.str "target", .dict
             [(.str "@type", .str "EntryPoint"),
              (.str "urlTemplate", .str "https://ex.com/book"),
              (.str "inLanguage", .str "en-US"),
              (.str "actionPlatform",
                .list [.str "http://schema.org/DesktopWebPlatform",
                       .str "http://schema.org/IOSPlatform",
                       .str "http://schema.org/AndroidPlatform"])]),
           (.str "a", .num "1")] :=
  ⟨by decide, rfl, rfl⟩

/-- C3 (amended): the projector raises exactly when extra_json is a
non-empty string on which the parse-then-merge pipeline fails: either
not valid JSON, or valid JSON whose top-level value dict.update cannot
consume as a mapping or as an iterable of key-value pairs.  In
particular "not json" raises a decode error, "[1,2,3]" (valid JSON, not
an object, elements not pairs) raises a type error, and "" performs no
overlay and raises nothing; but a valid-JSON non-object consumable as
key-value pairs, such as [["a", 1]], does not raise. -/
theorem C3_amended_raises_iff (e : ActionEntry) :
    ((∃ err, StructuredDataActionValue.struct_dict e = .error err) ↔
      (e.extra_json ≠ "" ∧
        ∃ err, (loads e.extra_json).bind updateArg = .error err)) ∧
    StructuredDataActionValue.struct_dict (reserveEntry "not json") =
      .error .jsonDecodeError ∧
    StructuredDataActionValue.struct_dict (reserveEntry "[1,2,3]") =
      .error .typeError ∧
    StructuredDataActionValue.struct_dict (reserveEntry "") =
      .ok (StructuredDataActionValue.struct_dict_base (reserveEntry "")) := by
  refine ⟨?_, rfl, rfl, rfl⟩
  by_cases h : e.extra_json = ""
  · simp [StructuredDataActionValue.struct_dict, h]
  · simp only [StructuredDataActionValue.struct_dict, h, ne_eq,
      not_false_eq_true, if_true, true_and]
    cases hl : loads e.extra_json with
    | error err => simp [Bind.bind, Except.bind]
    | ok j =>
      cases hu : updateArg j with
      | error err => simp [Bind.bind, Except.bind, hu]
      | ok pairs => simp [Bind.bind, Except.bind, hu]

/-- C5: the output contains the key "result" exactly when result_type
is truthy, and then its value is the dictionary with "@type" equal to
result_type and "name" equal to result_name (emitted even when empty);
when result_type is falsy the key is absent regardless of result_name —
all assuming the extra_json overlay does not itself supply a "result"
key. -/
theorem C5_result_key_iff (e : ActionEntry)
    (pairs d : List (PyKey × PyVal))
    (hov : overlayOf e = .ok pairs)
    (hnr : lookupLast pairs (.str "result") = none)
    (hd : StructuredDataActionValue.struct_dict e = .ok d) :
    dictLookup d (.str "result") =
      if e.result_type ≠ "" then
        some (.dict [(.str "@type", .str e.result_type),
                     (.str "name", .str e.result_name)])
      else none := by
  obtain ⟨pairs2, hp2, hd2⟩ := (struct_dict_eq_ok e d).1 hd
  obtain rfl : pairs = pairs2 := by
    rw [hov] at hp2
    exact Except.ok.inj hp2
  subst hd2
  simp [dictLookup_dictUpdate, hnr, dictLookup_base_result]

/-- C5 witness: the theorem applied to a concrete entry with
result_type = "Reservation", and to one with result_type empty but
result_name set, whose output then has no "result" key. -/
theorem C5_result_key_iff_witness :
    dictLookup
      (StructuredDataActionValue.struct_dict_base
        { action_type := "ReserveAction", target := "https://ex.com/book",
          query := "", language := "en-US", result_type := "Reservation",
          result_name := "Book a table", extra_json := "" })
      (.str "result") =
      some (.dict [(.str "@type", .str "Reservation"),
                   (.str "name", .str "Book a table")]) ∧
    dictLookup
      (StructuredDataActionValue.struct_dict_base
        { action_type := "ReserveAction", target := "https://ex.com/book",
          query := "", language := "en-US", result_type := "",
          result_name := "orphan name", extra_json := "" })
      (.str "result") = none := by
  constructor
  · have h := C5_result_key_iff
      { action_type := "ReserveAction", target := "https://ex.com/book",
        query := "", language := "en-US", result_type := "Reservation",
        result_name := "Book a table", extra_json := "" }
      [] _ rfl rfl rfl
    exact h.trans (if_pos (by decide))
  · have h := C5_result_key_iff
      { action_type := "ReserveAction", target := "https://ex.com/book",
        query := "", language := "en-US", result_type := "",
        result_name := "orphan name", extra_json := "" }
      [] _ rfl rfl rfl
    exact h.trans (if_neg (by decide))

/-- The code of a zero-padded decimal digit maps back to itself. -/
theorem charToNat48 (x : Nat) (hx : x < 10) :
    (Char.ofNat (48 + x)).toNat = 48 + x := by
  interval_cases x <;> decide

/-- The modelled serializer always produces an "HH:MM" string on a
valid time of day. -/
theorem isHHMM_formatHHMM (t : TimeOfDay) (hh : t.hour < 24)
    (hm : t.minute < 60) : isHHMM (formatHHMM t) = true := by
  have d1 : t.hour / 10 % 10 < 10 := Nat.mod_lt _ (by norm_num)
  have d2 : t.hour % 10 < 10 := Nat.mod_lt _ (by norm_num)
  have d3 : t.minute / 10 % 10 < 10 := Nat.mod_lt _ (by norm_num)
  have d4 : t.minute % 10 < 10 := Nat.mod_lt _ (by norm_num)
  have hstep : isHHMM (formatHHMM t) = isHHMMChars
      [Char.ofNat (48 + t.hour / 10 % 10), Char.ofNat (48 + t.hour % 10),
       ':',
       Char.ofNat (48 + t.minute / 10 % 10),
       Char.ofNat (48 + t.minute % 10)] := rfl
  rw [hstep]
  simp only [isHHMMChars, charToNat48 _ d1, charToNat48 _ d2,
    charToNat48 _ d3, charToNat48 _ d4, Bool.and_eq_true,
    decide_eq_true_eq, eq_self_iff_true, true_and]
  omega

/-- C6: for every valid OpenHoursEntry the OpeningHours projector
emits the OpeningHoursSpecification dictionary whose dayOfWeek equals
the input days sequence exactly (no reordering, no deduplication) and
whose opens and closes are the two times serialized as 24-hour "HH:MM"
strings. -/
theorem C6_openhours_projection (e : OpenHoursEntry)
    (h1 : e.start_time.hour < 24) (h2 : e.start_time.minute < 60)
    (h3 : e.end_time.hour < 24) (h4 : e.end_time.minute < 60) :
    OpenHoursValue.struct_dict e =
      [(.str "@type", .str "OpeningHoursSpecification"),
       (.str "dayOfWeek", .list (e.days.map PyVal.str)),
       (.str "opens", .str (formatHHMM e.start_time)),
       (.str "closes", .str (formatHHMM e.end_time))] ∧
    isHHMM (formatHHMM e.start_time) = true ∧
    isHHMM (formatHHMM e.end_time) = true :=
  ⟨rfl, isHHMM_formatHHMM _ h1 h2, isHHMM_formatHHMM _ h3 h4⟩

/-- C6 witness: a concrete entry with a duplicated, unsorted days
selection, carried through verbatim, and times rendered zero-padded. -/
theorem C6_openhours_projection_witness :
    OpenHoursValue.struct_dict
      { days := ["Friday", "Saturday", "Friday"],
        start_time := { hour := 9, minute := 5 },
        end_time := { hour := 23, minute := 59 } } =
      [(.str "@type", .str "OpeningHoursSpecification"),
       (.str "dayOfWeek",
         .list [.str "Friday", .str "Saturday", .str "Friday"]),
       (.str "opens", .str "09:05"),
       (.str "closes", .str "23:59")] ∧
    isHHMM "09:05" = true ∧ isHHMM "23:59" = true := by
  have h := C6_openhours_projection
    { days := ["Friday", "Saturday", "Friday"],
      start_time := { hour := 9, minute := 5 },
      end_time := { hour := 23, minute := 59 } }
    (by norm_num) (by norm_num) (by norm_num) (by norm_num)
  exact ⟨h.1.trans rfl, h.2.1, h.2.2⟩

/-- C7: the Action projector never returns a partially-merged
dictionary: on every input it either raises, or returns the steps 1-2
dictionary merged with the complete extra_json overlay (empty when
extra_json is falsy). -/
theorem C7_no_partial_result (e : ActionEntry) :
    (∃ err, StructuredDataActionValue.struct_dict e = .error err) ∨
    (∃ pairs, overlayOf e = .ok pairs ∧
      StructuredDataActionValue.struct_dict e =
        .ok (dictUpdate (StructuredDataActionValue.struct_dict_base e)
              pairs)) := by
  cases hd : StructuredDataActionValue.struct_dict e with
  | error err => exact Or.inl ⟨err, rfl⟩
  | ok d =>
    right
    obtain ⟨pairs, hp, hdd⟩ := (struct_dict_eq_ok e d).1 hd
    exact ⟨pairs, hp, by rw [hdd]⟩

/-- C8: validation of the multi-choice field fails with a
ValidationError exactly when the required flag is set and the selection
is empty, or some selected token is outside the configured choice
values; and the choice values configured on the days field are the
seven weekday names. -/
theorem C8_multiselect_validate (required : Bool)
    (choices : List (String × String)) (selection : List String) :
    ((∃ err, MultipleChoiceField.validate required choices selection =
        .error err) ↔
      ((required = true ∧ selection = []) ∨
        ∃ t ∈ selection, t ∉ choices.map Prod.fst)) ∧
    daysChoices.map Prod.fst =
      ["Monday", "Tuesday", "Wednesday", "Thursday", "Friday",
       "Saturday", "Sunday"] := by
  refine ⟨?_, rfl⟩
  unfold MultipleChoiceField.validate
  by_cases hre : (required && selection.isEmpty) = true
  · simp only [hre, if_true]
    constructor
    · intro _
      have h12 : required = true ∧ selection.isEmpty = true := by
        simpa using hre
      exact Or.inl ⟨h12.1, by simpa using h12.2⟩
    · intro _
      exact ⟨.required, rfl⟩
  · simp only [hre, if_false]
    cases hf : selection.find? (fun v => ! validValue choices v) with
    | some x =>
      simp only [hf]
      constructor
      · intro _
        right
        refine ⟨x, List.mem_of_find?_eq_some hf, ?_⟩
        have hx := List.find?_some hf
        intro hmem
        have hv : validValue choices x = true := by
          rcases List.mem_map.mp hmem with ⟨c, hc, hcx⟩
          exact List.any_eq_true.mpr ⟨c, hc, by simp [hcx]⟩
        rw [hv] at hx
        simp at hx
      · intro _
        exact ⟨.invalidChoice, rfl⟩
    | none =>
      simp only [hf]
      constructor
      · rintro ⟨err, h⟩
        exact Except.noConfusion h
      · rintro (⟨h1, h2⟩ | ⟨t, ht, hnot⟩)
        · exact absurd (by simp [h1, h2]) hre
        · exfalso
          have hnf := List.find?_eq_none.mp hf t ht
          have hv : validValue choices t = true := by
            cases hvv : validValue choices t with
            | false => exact absurd (by simp [hvv]) hnf
            | true => rfl
          rcases List.any_eq_true.mp hv with ⟨c, hc, hceq⟩
          exact hnot (List.mem_map.mpr ⟨c, hc, by simpa using hceq⟩)

/-- C9: a field the taken branch does not read never influences the
output: for action_type other than "SearchAction" the query field is
not read, and for "SearchAction" the language field is not read — and
then no "inLanguage" key appears in the output unless the extra_json
overlay itself supplies one (extra_json held fixed throughout). -/
theorem C9_unread_field_noninterference (e : ActionEntry) (q l : String) :
    (e.action_type ≠ "SearchAction" →
      StructuredDataActionValue.struct_dict { e with query := q } =
        StructuredDataActionValue.struct_dict e) ∧
    (e.action_type = "SearchAction" →
      (StructuredDataActionValue.struct_dict { e with language := l } =
        StructuredDataActionValue.struct_dict e) ∧
      ∀ pairs d, overlayOf e = .ok pairs →
        lookupLast pairs (.str "inLanguage") = none →
        StructuredDataActionValue.struct_dict e = .ok d →
        dictLookup d (.str "inLanguage") = none) := by
  refine ⟨fun ha => ?_, fun ha => ⟨?_, ?_⟩⟩
  · simp [StructuredDataActionValue.struct_dict,
      StructuredDataActionValue.struct_dict_base, ha]
  · simp [StructuredDataActionValue.struct_dict,
      StructuredDataActionValue.struct_dict_base, ha]
  · intro pairs d hov hnl hd
    obtain ⟨pairs2, hp2, hd2⟩ := (struct_dict_eq_ok e d).1 hd
    obtain rfl : pairs = pairs2 := by
      rw [hov] at hp2
      exact Except.ok.inj hp2
    subst hd2
    simp [dictLookup_dictUpdate, hnl, dictLookup_base_inLanguage e ha]

/-- C9 witness: concrete instances — a ReserveAction with two
different query values, a SearchAction with two different language
values, and the absence of "inLanguage" in a concrete SearchAction
output. -/
theorem C9_unread_field_noninterference_witness :
    (StructuredDataActionValue.struct_dict
        { action_type := "ReserveAction", target := "https://ex.com/book",
          query := "changed", language := "en-US", result_type := "",
          result_name := "", extra_json := "" } =
      StructuredDataActionValue.struct_dict
        { action_type := "ReserveAction", target := "https://ex.com/book",
          query := "", language := "en-US", result_type := "",
          result_name := "", extra_json := "" }) ∧
    (StructuredDataActionValue.struct_dict
        { action_type := "SearchAction", target := "https://ex.com/s",
          query := "q", language := "de-DE", result_type := "",
          result_name := "", extra_json := "" } =
      StructuredDataActionValue.struct_dict
        { action_type := "SearchAction", target := "https://ex.com/s",
          query := "q", language := "en-US", result_type := "",
          result_name := "", extra_json := "" }) ∧
    dictLookup [(.str "@type", .str "SearchAction"),
                (.str "target", .str "https://ex.com/s"),
                (.str "query", .str "q")] (.str "inLanguage") = none := by
  refine ⟨?_, ?_, ?_⟩
  · exact (C9_unread_field_noninterference
      { action_type := "ReserveAction", target := "https://ex.com/book",
        query := "", language := "en-US", result_type := "",
        result_name := "", extra_json := "" } "changed" "en-US").1
      (by decide)
  · exact (C9_unread_field_noninterference
      { action_type := "SearchAction", target := "https://ex.com/s",
        query := "q", language := "en-US", result_type := "",
        result_name := "", extra_json := "" } "q" "de-DE").2 rfl |>.1
  · exact (C9_unread_field_noninterference
      { action_type := "SearchAction", target := "https://ex.com/s",
        query := "q", language := "en-US", result_type := "",
        result_name := "", extra_json := "" } "q" "de-DE").2 rfl |>.2
      [] _ rfl rfl rfl

/-- Every element of a sequence that is a two-element list with a
hashable first component unpacks, so the whole sequence unpacks. -/
theorem pairsOfElems_ok (elems : List PyVal)
    (hp : ∀ v ∈ elems, ∃ k w, (keyOf k).isSome ∧ v = .list [k, w]) :
    ∃ pairs, pairsOfElems elems = .ok pairs := by
  induction elems with
  | nil => exact ⟨[], rfl⟩
  | cons v rest ih =>
    obtain ⟨k, w, hk, rfl⟩ := hp v (List.mem_cons_self v rest)
    obtain ⟨pairs, hps⟩ := ih (fun x hx => hp x (List.mem_cons_of_mem _ hx))
    cases hko : keyOf k with
    | none => rw [hko] at hk; simp at hk
    | some kk =>
      refine ⟨(kk, w) :: pairs, ?_⟩
      simp [pairsOfElems, elemToPair, hko, hps, Bind.bind, Except.bind]

/-- C10: a non-empty extra_json that is valid JSON but not an object —
an array whose elements are two-element key-value lists — raises
nothing: the projector completes and merges those pairs into the output
dictionary as top-level keys. -/
theorem C10_pair_array_merges (e : ActionEntry) (elems : List PyVal)
    (hne : e.extra_json ≠ "")
    (hl : loads e.extra_json = .ok (.list elems))
    (hp : ∀ v ∈ elems, ∃ k w, (keyOf k).isSome ∧ v = .list [k, w]) :
    ∃ pairs, pairsOfElems elems = .ok pairs ∧
      StructuredDataActionValue.struct_dict e =
        .ok (dictUpdate (StructuredDataActionValue.struct_dict_base e)
              pairs) := by
  obtain ⟨pairs, hps⟩ := pairsOfElems_ok elems hp
  refine ⟨pairs, hps, ?_⟩
  simp [StructuredDataActionValue.struct_dict, hne, hl, updateArg, hps,
    Bind.bind, Except.bind]

/-- C10 witness: extra_json = [["a", 1], ["b", true]] completes and
adds the keys "a" and "b" to a concrete OrderAction output. -/
theorem C10_pair_array_merges_witness :
    StructuredDataActionValue.struct_dict
      { action_type := "OrderAction", target := "https://ex.com/order",
        query := "", language := "en-GB", result_type := "",
        result_name := "",
        extra_json := "[[\"a\", 1], [\"b\", true]]" } =
      .ok [(.str "@type", .str "OrderAction"),
           (.str "target", .dict
             [(.str "@type", .str "EntryPoint"),
              (.str "urlTemplate", .str "https://ex.com/order"),
              (.str "inLanguage", .str "en-GB"),
              (.str "actionPlatform",
                .list [.str "http://schema.org/DesktopWebPlatform",
                       .str "http://schema.org/IOSPlatform",
                       .str "http://schema.org/AndroidPlatform"])]),
           (.str "a", .num "1"), (.str "b", .bool true)] := by
  obtain ⟨pairs, h1, h2⟩ := C10_pair_array_merges
    { action_type := "OrderAction", target := "https://ex.com/order",
      query := "", language := "en-GB", result_type := "",
      result_name := "",
      extra_json := "[[\"a\", 1], [\"b\", true]]" }
    [.list [.str "a", .num "1"], .list [.str "b", .bool true]]
    (by decide) rfl
    (by
      intro v hv
      rcases List.mem_cons.mp hv with h | hv2
      · exact ⟨.str "a", .num "1", by simp [keyOf], h⟩
      · rcases List.mem_cons.mp hv2 with h | h3
        · exact ⟨.str "b", .bool true, by simp [keyOf], h⟩
        · cases h3)
  obtain rfl : pairs = [(.str "a", .num "1"), (.str "b", .bool true)] := by
    have hc : pairsOfElems
        [.list [.str "a", .num "1"], .list [.str "b", .bool true]] =
        .ok [(.str "a", .num "1"), (.str "b", .bool true)] := rfl
    rw [hc] at h1
    exact (Except.ok.inj h1).symm
  exact h2.trans rfl
